import Mathlib

/-!
# Verification of `draw-images/script/generate_image.py`

A shallow embedding of the Gemini image-generation CLI script.  The script
reads two positional arguments (prompt, output path), validates the prompt,
reads the `GEMINI_API_KEY` environment variable, performs one HTTP POST,
extracts a base64-encoded image from the JSON response, and writes the
decoded bytes to the output path, creating parent directories as needed.

The embedding makes the effects explicit:
* the environment variable is an `Option String` argument;
* the single HTTP exchange is an oracle value `HttpResult` describing what
  `urllib.request.urlopen` returned or raised;
* the filesystem is a `FS` value threaded through `save_image`;
* writes to standard error are collected as a list of `Msg` values, one
  constructor per distinct `print(..., file=sys.stderr)` site in the source,
  carrying the data interpolated into the message;
* `sys.exit(n)` becomes the exit code recorded in the final `Outcome`.

Bytes are natural numbers below 256; `base64.b64decode` is modelled by
`b64decode` below, a direct translation of CPython's `binascii.a2b_base64`
loop in its default non-strict mode (non-alphabet characters are discarded,
`=` completes a two- or three-character group and ends decoding, a stray
`=` elsewhere is ignored and decoding resumes, input ending mid-group is a
padding error, non-ASCII input is a decoding error).
-/

namespace GenerateImage

/-! ## Base64 -/

/-- Value of a character of the standard base64 alphabet, `none` for any
other character (including `=`). -/
def b64index (c : Char) : Option Nat :=
  let n := c.toNat
  if 65 ≤ n ∧ n ≤ 90 then some (n - 65)
  else if 97 ≤ n ∧ n ≤ 122 then some (n - 97 + 26)
  else if 48 ≤ n ∧ n ≤ 57 then some (n - 48 + 52)
  else if n = 43 then some 62
  else if n = 47 then some 63
  else none

/-- Character of the standard base64 alphabet for a sextet value below 64. -/
def b64char (i : Nat) : Char :=
  if i < 26 then Char.ofNat (65 + i)
  else if i < 52 then Char.ofNat (97 + (i - 26))
  else if i < 62 then Char.ofNat (48 + (i - 52))
  else if i = 62 then '+' else '/'

/-- One pass of `binascii.a2b_base64` in its default non-strict mode,
translated from CPython's loop: `acc` holds the data sextets of the group
currently being assembled (CPython's `quad_pos` and pending `leftchar`
bits, at most three entries) and `pads` records whether a `=` has been
seen while the group held exactly two sextets (CPython's `pads` counter,
which every data character resets).  A character outside the alphabet is
discarded.  A data character resets `pads`, joins the group, and flushes
three bytes when it completes a quad.  A `=` with two group sextets and
`pads` already set, or with three group sextets, ends decoding
successfully with the group's pending one or two bytes, ignoring the rest
of the input; with two group sextets and `pads` clear it sets `pads`;
with an empty or one-sextet group it is ignored.  Input that runs out
mid-group is a padding error ("Incorrect padding" or the
one-more-than-a-multiple-of-four error). -/
def decodeCore : List Char → List Nat → Bool → Option (List Nat)
  | [], [], _ => some []
  | [], _ :: _, _ => none
  | c :: rest, acc, pads =>
    match b64index c with
    | some i =>
      match acc with
      | [i1, i2, i3] =>
        (decodeCore rest [] false).map fun bs =>
          (i1 * 4 + i2 / 16) :: ((i2 % 16) * 16 + i3 / 4) :: ((i3 % 4) * 64 + i) :: bs
      | _ => decodeCore rest (acc ++ [i]) false
    | none =>
      if c = '=' then
        match acc with
        | [i1, i2] =>
          if pads then some [i1 * 4 + i2 / 16]
          else decodeCore rest [i1, i2] true
        | [i1, i2, i3] => some [i1 * 4 + i2 / 16, (i2 % 16) * 16 + i3 / 4]
        | _ => decodeCore rest acc pads
      else decodeCore rest acc pads

/-- Model of `base64.b64decode` on a character list: reject non-ASCII input
(`str.encode("ascii")` raises `ValueError`), then run the lenient
single-pass decoder on the characters. -/
def b64decodeList (cs : List Char) : Option (List Nat) :=
  if cs.any (fun c => 127 < c.toNat) then none
  else decodeCore cs [] false

/-- Model of `base64.b64decode` applied to the `data` string of the response:
`some bytes` when decoding succeeds, `none` when the library throws. -/
def b64decode (s : String) : Option (List Nat) :=
  b64decodeList s.data

/-- Standard base64 encoding of a byte list (the inverse direction, used to
state the round-trip property; the script itself only decodes). -/
def b64encodeList : List Nat → List Char
  | x :: y :: z :: rest =>
    b64char (x / 4) :: b64char ((x % 4) * 16 + y / 16) ::
      b64char ((y % 16) * 4 + z / 64) :: b64char (z % 64) :: b64encodeList rest
  | [x] => [b64char (x / 4), b64char ((x % 4) * 16), '=', '=']
  | [x, y] => [b64char (x / 4), b64char ((x % 4) * 16 + y / 16), b64char ((y % 16) * 4), '=']
  | [] => []

/-- Standard base64 encoding as a string. -/
def b64encode (b : List Nat) : String :=
  String.mk (b64encodeList b)

/-! ## Response data model

The script reads exactly these paths of the response JSON:
`response["candidates"]`, `candidates[0]["content"]`, `content["parts"]`,
`part["inlineData"]`, `inlineData["mimeType"]`, `inlineData["data"]`.
Each `dict.get` with a default becomes an `Option` field read with `getD`;
other keys of the JSON objects are never inspected and are left out. -/

/-- An `inlineData` object: `{mimeType, data}`, both keys optional. -/
structure InlineData where
  mimeType : Option String
  data : Option String
  deriving DecidableEq

/-- One element of `content["parts"]`; the script only tests for and reads
the `inlineData` key. -/
structure Part where
  inlineData : Option InlineData
  deriving DecidableEq

/-- A `content` object; the script only reads the `parts` key. -/
structure Content where
  parts : Option (List Part)
  deriving DecidableEq

/-- One candidate; the script only reads the `content` key. -/
structure Candidate where
  content : Option Content
  deriving DecidableEq

/-- The parsed response body; the script only reads the `candidates` key. -/
structure Response where
  candidates : Option (List Candidate)
  deriving DecidableEq

/-- Forget the `mimeType` field, keeping everything else (used to state
that two responses "differ only in the mimeType field"). -/
def InlineData.eraseMime (d : InlineData) : InlineData :=
  ⟨none, d.data⟩

/-- Forget every `mimeType` field of a part. -/
def Part.eraseMime (p : Part) : Part :=
  ⟨p.inlineData.map InlineData.eraseMime⟩

/-- Forget every `mimeType` field of a content object. -/
def Content.eraseMime (ct : Content) : Content :=
  ⟨ct.parts.map (List.map Part.eraseMime)⟩

/-- Forget every `mimeType` field of a candidate. -/
def Candidate.eraseMime (c : Candidate) : Candidate :=
  ⟨c.content.map Content.eraseMime⟩

/-- Forget every `mimeType` field of a response; two responses differ only
in `mimeType` fields exactly when their erasures coincide. -/
def Response.eraseMime (r : Response) : Response :=
  ⟨r.candidates.map (List.map Candidate.eraseMime)⟩

/-! ## Effects -/

/-- One message printed to standard error, one constructor per
`print(..., file=sys.stderr)` site in the source, carrying the data the
source interpolates into the f-string:
* `apiKeyNotSet` — "Error: GEMINI_API_KEY environment variable is not set"
* `apiRequestFailed code` — "Error: API request failed with status \x7bcode\x7d"
* `apiErrorDetails body` — the "Details: ..." line printed from the error body
* `networkError reason` — "Error: Network error - \x7breason\x7d"
* `requestTimedOut` — "Error: Request timed out"
* `noCandidates` — "Error: No candidates in response"
* `emptyImageData` — "Error: Empty image data in response"
* `base64DecodeFailed` — "Error: Failed to decode base64 data - \x7be\x7d"
* `noImageData` — "Error: No image data found in response"
* `promptEmpty` — "Error: Prompt cannot be empty"
* `failedToSave` — "Error: Failed to save image - \x7be\x7d" -/
inductive Msg
  | apiKeyNotSet
  | apiRequestFailed (code : Nat)
  | apiErrorDetails (body : String)
  | networkError (reason : String)
  | requestTimedOut
  | noCandidates
  | emptyImageData
  | base64DecodeFailed
  | noImageData
  | promptEmpty
  | failedToSave
  deriving DecidableEq

/-- Oracle for the single `urllib.request.urlopen` call: either a parsed
2xx JSON body, or the exception urllib raised (`HTTPError` carries the
non-2xx status code and the error body read from `e.fp`; `URLError` carries
`e.reason`; `TimeoutError` carries nothing). -/
inductive HttpResult
  | ok (response : Response)
  | httpError (code : Nat) (body : String)
  | urlError (reason : String)
  | timeout
  deriving DecidableEq

/-- Filesystem model: the set of directories that exist and the files with
their contents.  `save_image` is the only writer. -/
structure FS where
  dirs : List String
  files : List (String × List Nat)
  deriving DecidableEq

/-- Contents of a file in the modelled filesystem. -/
def FS.readFile (fs : FS) (path : String) : Option (List Nat) :=
  (fs.files.find? (fun e => e.1 = path)).map (fun e => e.2)

/-- Final state of one run: the exit code, whether the HTTP request was
issued, the lines printed to stdout, the messages printed to stderr, and the
filesystem left behind. -/
structure Outcome where
  exitCode : Nat
  networkCalled : Bool
  stdout : List String
  stderr : List Msg
  fs : FS
  deriving DecidableEq

/-! ## Python standard-library fragments used by the script -/

/-- Whitespace for `str.strip()` with no argument: the Unicode whitespace
characters Python strips (ASCII 9-13 and 28-32, NEL, NBSP, ogham space,
general punctuation spaces, line/paragraph separators, narrow NBSP, math
space, ideographic space). -/
def isPySpace (c : Char) : Bool :=
  let n := c.toNat
  (9 ≤ n && n ≤ 13) || (28 ≤ n && n ≤ 32) || n == 133 || n == 160 || n == 5760 ||
    (8192 ≤ n && n ≤ 8202) || n == 8232 || n == 8233 || n == 8239 || n == 8287 || n == 12288

/-- Model of `str.strip()`: drop leading and trailing whitespace. -/
def pyStrip (s : String) : String :=
  String.mk (((s.data.dropWhile isPySpace).reverse.dropWhile isPySpace).reverse)

/-- Model of `os.path.dirname` (POSIX): everything up to the last `/`,
with trailing slashes stripped unless the result is all slashes. -/
def dirname (p : String) : String :=
  let head := (p.data.reverse.dropWhile (fun c => c ≠ '/')).reverse
  if head.isEmpty then ""
  else if head.all (fun c => c = '/') then String.mk head
  else String.mk ((head.reverse.dropWhile (fun c => c = '/')).reverse)

/-- The directory and its chain of ancestors, following `dirname` until it
reaches the empty string or a fixed point (a run of slashes); the fuel bound
is generous since `dirname` strictly shortens its argument otherwise. -/
def ancestorChain : Nat → String → List String
  | 0, _ => []
  | fuel + 1, p =>
    if p = "" then []
    else
      let d := dirname p
      if d = p then [p] else p :: ancestorChain fuel d

/-- Model of `os.makedirs(p, exist_ok=True)`: the directory and all missing
ancestors exist afterwards. -/
def makedirs (fs : FS) (p : String) : FS :=
  { fs with dirs := ancestorChain (p.length + 1) p ++ fs.dirs }

/-! ## The script -/

/-- Embedding of `get_api_key`: the environment value, or an error (printing
the message and exiting) when the variable is unset or empty — Python's
`if not api_key` is true for both `None` and `""`. -/
def get_api_key (env : Option String) : Except Msg String :=
  match env with
  | none => .error .apiKeyNotSet
  | some api_key => if api_key = "" then .error .apiKeyNotSet else .ok api_key

/-- Embedding of `generate_image`: resolve the API key (exiting before any
request if it is missing), then perform the single HTTP POST described by
the oracle.  Returns the parsed response or the stderr messages of the
failure branch taken, paired with whether the request was issued. -/
def generate_image (env : Option String) (http : HttpResult) :
    Except (List Msg) Response × Bool :=
  match get_api_key env with
  | .error m => (.error [m], false)
  | .ok _ =>
    match http with
    | .ok response => (.ok response, true)
    | .httpError code body =>
      (.error (.apiRequestFailed code ::
        (if body = "" then [] else [.apiErrorDetails body])), true)
    | .urlError reason => (.error [.networkError reason], true)
    | .timeout => (.error [.requestTimedOut], true)

/-- The `for part in parts` loop of `extract_image_data`: the first part
carrying an `inlineData` key decides the result (every branch under the
`if "inlineData" in part` test returns or exits); parts without the key are
skipped; an exhausted loop falls through to the "No image data" exit. -/
def extractFromParts : List Part → Except Msg (List Nat × String)
  | [] => .error .noImageData
  | part :: rest =>
    match part.inlineData with
    | none => extractFromParts rest
    | some inline_data =>
      let mime_type := inline_data.mimeType.getD "image/png"
      let base64_data := inline_data.data.getD ""
      if base64_data = "" then .error .emptyImageData
      else
        match b64decode base64_data with
        | some image_bytes => .ok (image_bytes, mime_type)
        | none => .error .base64DecodeFailed

/-- Embedding of `extract_image_data`: absent or empty `candidates` is an
error; otherwise only `candidates[0]` is inspected and its parts scanned. -/
def extract_image_data (response : Response) : Except Msg (List Nat × String) :=
  match response.candidates.getD [] with
  | [] => .error .noCandidates
  | candidate :: _ =>
    extractFromParts ((candidate.content.getD ⟨none⟩).parts.getD [])

/-- Embedding of `save_image`: create the parent directory chain when the
dirname is non-empty, then write the bytes at the path.  `ioOk` is the
oracle for the `except IOError` branch (permissions, disk, ...), which the
model filesystem cannot itself produce. -/
def save_image (ioOk : Bool) (fs : FS) (image_bytes : List Nat)
    (output_path : String) : Except Msg (FS × String) :=
  if ioOk then
    let parent_dir := dirname output_path
    let fs1 := if parent_dir ≠ "" then makedirs fs parent_dir else fs
    .ok ({ fs1 with
            files := (output_path, image_bytes) ::
              fs1.files.filter (fun e => e.1 ≠ output_path) },
         output_path)
  else .error .failedToSave

/-- The start-of-run stdout line `Generating image for: ...`, with the
prompt truncated to 50 characters and an ellipsis when longer. -/
def promptBanner (prompt : String) : String :=
  "Generating image for: " ++ prompt.take 50 ++
    (if 50 < prompt.length then "..." else "")

/-- Embedding of `main` after successful argument parsing: `prompt` and
`output` are the two accepted positional arguments.  `env` is the
`GEMINI_API_KEY` value, `http` the network oracle, `ioOk` the file-write
oracle, `fs` the initial filesystem. -/
def main (prompt output : String) (env : Option String) (http : HttpResult)
    (ioOk : Bool) (fs : FS) : Outcome :=
  if pyStrip prompt = "" then
    ⟨1, false, [], [.promptEmpty], fs⟩
  else
    match generate_image env http with
    | (.error msgs, called) => ⟨1, called, [promptBanner prompt], msgs, fs⟩
    | (.ok response, called) =>
      match extract_image_data response with
      | .error m => ⟨1, called, [promptBanner prompt], [m], fs⟩
      | .ok (image_bytes, _) =>
        match save_image ioOk fs image_bytes output with
        | .error m => ⟨1, called, [promptBanner prompt], [m], fs⟩
        | .ok (fs2, _) =>
          ⟨0, called, [promptBanner prompt, "Image saved to: " ++ output], [], fs2⟩

/-! ## Lemmas about the base64 model -/

theorem b64index_b64char : ∀ i < 64, b64index (b64char i) = some i := by decide

theorem b64char_ne_pad : ∀ i < 64, b64char i ≠ '=' := by decide

theorem b64index_pad : b64index '=' = none := by decide

theorem b64char_lowbit : ∀ i < 64, (decide (127 < (b64char i).toNat)) = false := by decide

/-- Encoded output is pure ASCII, so the `str.encode("ascii")` step of the
decoder accepts it. -/
theorem encode_ascii : ∀ (b : List Nat), (∀ x ∈ b, x < 256) →
    (b64encodeList b).any (fun c => 127 < c.toNat) = false
  | [], _ => rfl
  | [x], h => by
    have hx : x < 256 := h x (by simp)
    simp only [b64encodeList, List.any_cons, List.any_nil,
      b64char_lowbit (x / 4) (by omega), b64char_lowbit ((x % 4) * 16) (by omega)]
    decide
  | [x, y], h => by
    have hx : x < 256 := h x (by simp)
    have hy : y < 256 := h y (by simp)
    simp only [b64encodeList, List.any_cons, List.any_nil,
      b64char_lowbit (x / 4) (by omega), b64char_lowbit ((x % 4) * 16 + y / 16) (by omega),
      b64char_lowbit ((y % 16) * 4) (by omega)]
    decide
  | x :: y :: z :: rest, h => by
    have hx : x < 256 := h x (by simp)
    have hy : y < 256 := h y (by simp)
    have hz : z < 256 := h z (by simp)
    have ih := encode_ascii rest (fun a ha => h a (by simp [ha]))
    simp only [b64encodeList, List.any_cons, ih,
      b64char_lowbit (x / 4) (by omega), b64char_lowbit ((x % 4) * 16 + y / 16) (by omega),
      b64char_lowbit ((y % 16) * 4 + z / 64) (by omega), b64char_lowbit (z % 64) (by omega)]
    decide

/-- The decoder inverts the encoder: canonical base64 text decodes to the
original bytes. -/
theorem decodeCore_encode : ∀ (b : List Nat), (∀ x ∈ b, x < 256) →
    decodeCore (b64encodeList b) [] false = some b
  | [], _ => rfl
  | [x], h => by
    have hx : x < 256 := h x (by simp)
    have e1 := b64index_b64char (x / 4) (by omega)
    have e2 := b64index_b64char ((x % 4) * 16) (by omega)
    simp only [b64encodeList, decodeCore, e1, e2, List.nil_append, List.cons_append,
      b64index_pad, Option.some.injEq, List.cons.injEq, and_true,
      if_true, ite_true, ite_self, Bool.false_eq_true, if_false, ite_false,
      Option.map_some', Option.map_none']
    omega
  | [x, y], h => by
    have hx : x < 256 := h x (by simp)
    have hy : y < 256 := h y (by simp)
    have e1 := b64index_b64char (x / 4) (by omega)
    have e2 := b64index_b64char ((x % 4) * 16 + y / 16) (by omega)
    have e3 := b64index_b64char ((y % 16) * 4) (by omega)
    simp only [b64encodeList, decodeCore, e1, e2, e3, List.nil_append, List.cons_append,
      b64index_pad, Option.some.injEq, List.cons.injEq, and_true,
      if_true, ite_true, Option.isSome_none, Option.map_some', Option.map_none']
    omega
  | x :: y :: z :: rest, h => by
    have hx : x < 256 := h x (by simp)
    have hy : y < 256 := h y (by simp)
    have hz : z < 256 := h z (by simp)
    have ih := decodeCore_encode rest (fun a ha => h a (by simp [ha]))
    have e1 := b64index_b64char (x / 4) (by omega)
    have e2 := b64index_b64char ((x % 4) * 16 + y / 16) (by omega)
    have e3 := b64index_b64char ((y % 16) * 4 + z / 64) (by omega)
    have e4 := b64index_b64char (z % 64) (by omega)
    simp only [b64encodeList, decodeCore, e1, e2, e3, e4, List.nil_append,
      List.cons_append, ih, Option.map_some']
    refine congrArg some ?_
    have h1 : x / 4 * 4 + ((x % 4) * 16 + y / 16) / 16 = x := by omega
    have h2 : ((x % 4) * 16 + y / 16) % 16 * 16 + ((y % 16) * 4 + z / 64) / 4 = y := by omega
    have h3 : ((y % 16) * 4 + z / 64) % 4 * 64 + z % 64 = z := by omega
    rw [h1, h2, h3]

/-- Round trip through the string-level interface. -/
theorem b64decode_encode (b : List Nat) (h : ∀ x ∈ b, x < 256) :
    b64decode (b64encode b) = some b := by
  have hd : (b64encode b).data = b64encodeList b := rfl
  rw [b64decode, b64decodeList, hd, encode_ascii b h, if_neg (by simp)]
  exact decodeCore_encode b h

/-! ## Lemmas about the Python library fragments -/

/-- A string of whitespace strips to the empty string. -/
theorem pyStrip_of_all_space (s : String) (h : ∀ c ∈ s.data, isPySpace c) :
    pyStrip s = "" := by
  have hd : s.data.dropWhile isPySpace = [] := by
    rw [List.dropWhile_eq_nil_iff]
    exact fun c hc => h c hc
  simp [pyStrip, hd]

/-! ## Lemmas about the extractor -/

/-- Parts without an `inlineData` key are skipped by the extraction loop. -/
theorem extractFromParts_skip (pre l : List Part)
    (h : ∀ q ∈ pre, q.inlineData = none) :
    extractFromParts (pre ++ l) = extractFromParts l := by
  induction pre with
  | nil => rfl
  | cons p ps ih =>
    rw [List.cons_append]
    have hp : p.inlineData = none := h p (by simp)
    simp only [extractFromParts, hp]
    exact ih (fun q hq => h q (by simp [hq]))

/-- Inversion of a successful loop: the part list splits into a prefix
without inline data, then the selected part, whose non-empty `data` field
decodes to exactly the returned bytes, and whose `mimeType` (defaulted)
is the returned mime-type. -/
theorem extractFromParts_ok_inv : ∀ (ps : List Part) (bytes : List Nat) (mime : String),
    extractFromParts ps = .ok (bytes, mime) →
    ∃ (pre rest : List Part) (part : Part) (inline : InlineData),
      ps = pre ++ part :: rest ∧ (∀ q ∈ pre, q.inlineData = none) ∧
      part.inlineData = some inline ∧ inline.data.getD "" ≠ "" ∧
      b64decode (inline.data.getD "") = some bytes ∧
      mime = inline.mimeType.getD "image/png"
  | [], bytes, mime, h => by simp [extractFromParts] at h
  | p :: rest, bytes, mime, h => by
    rcases hp : p.inlineData with _ | inline
    · simp only [extractFromParts, hp] at h
      obtain ⟨pre1, rest1, part, inline, hsplit, hpre, hpart, hne, hb, hm⟩ :=
        extractFromParts_ok_inv rest bytes mime h
      refine ⟨p :: pre1, rest1, part, inline, by rw [hsplit, List.cons_append], ?_,
        hpart, hne, hb, hm⟩
      intro q hq
      rcases List.mem_cons.mp hq with rfl | hq1
      · exact hp
      · exact hpre q hq1
    · simp only [extractFromParts, hp] at h
      by_cases hd : inline.data.getD "" = ""
      · rw [if_pos hd] at h
        simp at h
      · rw [if_neg hd] at h
        rcases hb : b64decode (inline.data.getD "") with _ | bs
        · rw [hb] at h
          simp at h
        · rw [hb] at h
          simp only [Except.ok.injEq, Prod.mk.injEq] at h
          exact ⟨[], rest, p, inline, rfl, by simp, hp, hd, by rw [hb, h.1], h.2.symm⟩

/-- The byte component of the loop's result (and the whole error behaviour)
does not depend on `mimeType` fields. -/
theorem extractFromParts_eraseMime : ∀ (ps qs : List Part),
    ps.map Part.eraseMime = qs.map Part.eraseMime →
    (extractFromParts ps).map Prod.fst = (extractFromParts qs).map Prod.fst
  | [], [], _ => rfl
  | [], q :: qs, h => by simp at h
  | p :: ps, [], h => by simp at h
  | p :: ps, q :: qs, h => by
    simp only [List.map_cons, List.cons.injEq] at h
    have hhead : p.inlineData.map InlineData.eraseMime = q.inlineData.map InlineData.eraseMime := by
      have := h.1
      rw [Part.eraseMime, Part.eraseMime] at this
      exact congrArg Part.inlineData this
    have ih := extractFromParts_eraseMime ps qs h.2
    rcases hp : p.inlineData with _ | d1 <;> rcases hq : q.inlineData with _ | d2 <;>
      rw [hp, hq] at hhead
    · simp only [extractFromParts, hp, hq]
      exact ih
    · simp at hhead
    · simp at hhead
    · simp only [Option.map_some', Option.some.injEq] at hhead
      have hdata : d1.data = d2.data := by
        have := congrArg InlineData.data hhead
        simpa [InlineData.eraseMime] using this
      simp only [extractFromParts, hp, hq, hdata]
      by_cases hd : d2.data.getD "" = ""
      · rw [if_pos hd, if_pos hd]
      · rw [if_neg hd, if_neg hd]
        rcases hb : b64decode (d2.data.getD "") with _ | bs <;> simp [Except.map]
  termination_by ps _ _ => ps.length

/-- Transport mime-erasure equality from content options to the part lists
the extractor actually scans. -/
theorem contentParts_eraseMime (o1 o2 : Option Content)
    (h : o1.map Content.eraseMime = o2.map Content.eraseMime) :
    ((o1.getD ⟨none⟩).parts.getD []).map Part.eraseMime =
      ((o2.getD ⟨none⟩).parts.getD []).map Part.eraseMime := by
  rcases o1 with _ | ct1 <;> rcases o2 with _ | ct2
  · rfl
  · simp at h
  · simp at h
  · simp only [Option.map_some', Option.some.injEq] at h
    have hp : ct1.parts.map (List.map Part.eraseMime) =
        ct2.parts.map (List.map Part.eraseMime) := by
      have := congrArg Content.parts h
      rw [Content.eraseMime, Content.eraseMime] at this
      exact this
    simp only [Option.getD_some]
    rcases k1 : ct1.parts with _ | ps1 <;> rcases k2 : ct2.parts with _ | ps2
    · rfl
    · rw [k1, k2] at hp; simp at hp
    · rw [k1, k2] at hp; simp at hp
    · rw [k1, k2] at hp
      simpa using hp

/-- Extraction is `mimeType`-oblivious up to the returned mime-type. -/
theorem extract_image_data_eraseMime (r1 r2 : Response)
    (h : r1.eraseMime = r2.eraseMime) :
    (extract_image_data r1).map Prod.fst = (extract_image_data r2).map Prod.fst := by
  have hc : r1.candidates.map (List.map Candidate.eraseMime) =
      r2.candidates.map (List.map Candidate.eraseMime) := by
    rw [Response.eraseMime, Response.eraseMime] at h
    exact congrArg Response.candidates h
  rcases h1 : r1.candidates with _ | l1 <;> rcases h2 : r2.candidates with _ | l2
  · simp [extract_image_data, h1, h2]
  · rw [h1, h2] at hc; simp at hc
  · rw [h1, h2] at hc; simp at hc
  · rw [h1, h2] at hc
    simp only [Option.map_some', Option.some.injEq] at hc
    rcases l1 with _ | ⟨c1, t1⟩ <;> rcases l2 with _ | ⟨c2, t2⟩
    · simp [extract_image_data, h1, h2]
    · simp at hc
    · simp at hc
    · simp only [List.map_cons, List.cons.injEq] at hc
      have hcand : c1.content.map Content.eraseMime = c2.content.map Content.eraseMime := by
        have := hc.1
        rw [Candidate.eraseMime, Candidate.eraseMime] at this
        exact congrArg Candidate.content this
      simp only [extract_image_data, h1, h2, Option.getD_some]
      exact extractFromParts_eraseMime _ _ (contentParts_eraseMime c1.content c2.content hcand)

/-- Shape of the extraction result when the first candidate's parts consist
of a prefix without inline data followed by a part that carries it: that
part alone decides the outcome. -/
theorem extract_image_data_first_inline (r : Response) (c : Candidate)
    (cs : List Candidate) (ct : Content) (pre : List Part) (part : Part)
    (rest : List Part) (inline : InlineData)
    (hr : r.candidates = some (c :: cs)) (hct : c.content = some ct)
    (hps : ct.parts = some (pre ++ part :: rest))
    (hpre : ∀ q ∈ pre, q.inlineData = none)
    (hpart : part.inlineData = some inline) :
    extract_image_data r =
      (if inline.data.getD "" = "" then .error Msg.emptyImageData
       else
         match b64decode (inline.data.getD "") with
         | some image_bytes => .ok (image_bytes, inline.mimeType.getD "image/png")
         | none => .error Msg.base64DecodeFailed) := by
  simp only [extract_image_data, hr, Option.getD_some, hct, hps]
  rw [extractFromParts_skip pre (part :: rest) hpre]
  simp only [extractFromParts, hpart]

/-- A non-empty directory path is in its own ancestor chain. -/
theorem self_mem_ancestorChain (p : String) (hp : p ≠ "") (n : Nat) :
    p ∈ ancestorChain (n + 1) p := by
  unfold ancestorChain
  rw [if_neg hp]
  by_cases hd : dirname p = p
  · simp [hd]
  · simp [hd]

/-! ## Lemmas about the whole run -/

/-- Reaching the extractor with a successful extraction writes the bytes at
the output path and exits 0. -/
theorem main_ok_writes (prompt output key : String) (fs : FS) (r : Response)
    (bytes : List Nat) (mime : String)
    (hp : pyStrip prompt ≠ "") (hk : key ≠ "")
    (hE : extract_image_data r = .ok (bytes, mime)) :
    (main prompt output (some key) (.ok r) true fs).exitCode = 0 ∧
      (main prompt output (some key) (.ok r) true fs).fs.readFile output = some bytes := by
  simp only [main, if_neg hp, generate_image, get_api_key, if_neg hk, hE]
  constructor
  · rfl
  · simp [save_image, FS.readFile]

/-! ## Claims -/

/-- C1: for every successful run — the response's first candidate has a
part whose non-empty `inlineData.data` decodes — the bytes written to the
output file are exactly the base64 decoding of that part's `data` field;
consequently decoding the encoding of any byte sequence `b` and writing it
yields a file whose contents are `b`. -/
theorem claim_C1 :
    (∀ (prompt output key : String) (fs : FS) (r : Response) (c : Candidate)
        (cs : List Candidate) (ct : Content) (pre rest : List Part) (part : Part)
        (inline : InlineData) (s : String) (bytes : List Nat),
        pyStrip prompt ≠ "" → key ≠ "" →
        r.candidates = some (c :: cs) → c.content = some ct →
        ct.parts = some (pre ++ part :: rest) →
        (∀ q ∈ pre, q.inlineData = none) → part.inlineData = some inline →
        inline.data = some s → s ≠ "" → b64decode s = some bytes →
        (main prompt output (some key) (.ok r) true fs).exitCode = 0 ∧
          (main prompt output (some key) (.ok r) true fs).fs.readFile output = some bytes) ∧
    (∀ b : List Nat, (∀ x ∈ b, x < 256) → b64decode (b64encode b) = some b) := by
  constructor
  · intro prompt output key fs r c cs ct pre rest part inline s bytes
    intro hp hk hr hct hps hpre hpart hdata hs hdec
    have hE : extract_image_data r = .ok (bytes, inline.mimeType.getD "image/png") := by
      rw [extract_image_data_first_inline r c cs ct pre part rest inline hr hct hps hpre hpart]
      rw [hdata, Option.getD_some, if_neg hs, hdec]
    exact main_ok_writes prompt output key fs r bytes _ hp hk hE
  · exact b64decode_encode

/-- Witness for C1 at a concrete run: the response carries base64 "TWFu",
the file ends up containing the bytes of "Man", and a concrete round trip. -/
theorem claim_C1_witness :
    ((main "a cat" "out/img.png" (some "k")
        (.ok ⟨some [⟨some ⟨some [⟨some ⟨some "image/png", some "TWFu"⟩⟩]⟩⟩]⟩)
        true ⟨[], []⟩).exitCode = 0 ∧
      (main "a cat" "out/img.png" (some "k")
        (.ok ⟨some [⟨some ⟨some [⟨some ⟨some "image/png", some "TWFu"⟩⟩]⟩⟩]⟩)
        true ⟨[], []⟩).fs.readFile "out/img.png" = some [77, 97, 110]) ∧
    b64decode (b64encode [5, 200, 31, 0]) = some [5, 200, 31, 0] :=
  ⟨claim_C1.1 "a cat" "out/img.png" "k" ⟨[], []⟩
      ⟨some [⟨some ⟨some [⟨some ⟨some "image/png", some "TWFu"⟩⟩]⟩⟩]⟩
      ⟨some ⟨some [⟨some ⟨some "image/png", some "TWFu"⟩⟩]⟩⟩ []
      ⟨some [⟨some ⟨some "image/png", some "TWFu"⟩⟩]⟩ [] []
      ⟨some ⟨some "image/png", some "TWFu"⟩⟩ ⟨some "image/png", some "TWFu"⟩
      "TWFu" [77, 97, 110]
      (by decide) (by decide) rfl rfl rfl (by simp) rfl rfl (by decide) rfl,
    claim_C1.2 [5, 200, 31, 0] (by decide)⟩

/-- C2: an empty or all-whitespace prompt exits with status 1 before any
HTTP request is issued. -/
theorem claim_C2 (prompt output : String) (env : Option String)
    (http : HttpResult) (ioOk : Bool) (fs : FS)
    (h : ∀ c ∈ prompt.data, isPySpace c) :
    (main prompt output env http ioOk fs).exitCode = 1 ∧
      (main prompt output env http ioOk fs).networkCalled = false := by
  have hs : pyStrip prompt = "" := pyStrip_of_all_space prompt h
  simp [main, hs]

/-- Witness for C2 on the two-space prompt. -/
theorem claim_C2_witness :
    (main "  " "out.png" (some "k") (.ok ⟨none⟩) true ⟨[], []⟩).exitCode = 1 ∧
      (main "  " "out.png" (some "k") (.ok ⟨none⟩) true ⟨[], []⟩).networkCalled = false :=
  claim_C2 "  " "out.png" (some "k") (.ok ⟨none⟩) true ⟨[], []⟩ (by decide)

/-- C3: with `GEMINI_API_KEY` unset or empty the run prints an error and
exits with status 1 without issuing the HTTP request (when the prompt check
already failed, the error printed is the prompt error instead). -/
theorem claim_C3 (prompt output : String) (env : Option String)
    (http : HttpResult) (ioOk : Bool) (fs : FS)
    (henv : env = none ∨ env = some "") :
    (main prompt output env http ioOk fs).exitCode = 1 ∧
      (main prompt output env http ioOk fs).networkCalled = false ∧
      (main prompt output env http ioOk fs).stderr ≠ [] ∧
      (pyStrip prompt ≠ "" →
        Msg.apiKeyNotSet ∈ (main prompt output env http ioOk fs).stderr) := by
  by_cases hp : pyStrip prompt = ""
  · rcases henv with rfl | rfl <;> simp [main, hp]
  · rcases henv with rfl | rfl <;> simp [main, hp, generate_image, get_api_key]

/-- Witness for C3 with the variable unset. -/
theorem claim_C3_witness :
    (main "hi" "o.png" none .timeout true ⟨[], []⟩).exitCode = 1 ∧
      (main "hi" "o.png" none .timeout true ⟨[], []⟩).networkCalled = false ∧
      (main "hi" "o.png" none .timeout true ⟨[], []⟩).stderr ≠ [] ∧
      (pyStrip "hi" ≠ "" →
        Msg.apiKeyNotSet ∈ (main "hi" "o.png" none .timeout true ⟨[], []⟩).stderr) :=
  claim_C3 "hi" "o.png" none .timeout true ⟨[], []⟩ (Or.inl rfl)

/-- C4: every run exits with status 0 or 1, and status 0 happens exactly on
the runs that hit no handled error (nothing printed to stderr). -/
theorem claim_C4 (prompt output : String) (env : Option String)
    (http : HttpResult) (ioOk : Bool) (fs : FS) :
    ((main prompt output env http ioOk fs).exitCode = 0 ∨
      (main prompt output env http ioOk fs).exitCode = 1) ∧
    ((main prompt output env http ioOk fs).exitCode = 0 ↔
      (main prompt output env http ioOk fs).stderr = []) := by
  by_cases hp : pyStrip prompt = ""
  · simp [main, hp]
  · rcases env with _ | key
    · simp [main, hp, generate_image, get_api_key]
    · by_cases hk : key = ""
      · simp [main, hp, generate_image, get_api_key, hk]
      · cases http with
        | ok r =>
          rcases hE : extract_image_data r with m | ⟨bytes, mime⟩
          · simp [main, hp, generate_image, get_api_key, hk, hE]
          · cases ioOk
            · simp [main, hp, generate_image, get_api_key, hk, hE, save_image]
            · simp [main, hp, generate_image, get_api_key, hk, hE, save_image]
        | httpError code body => simp [main, hp, generate_image, get_api_key, hk]
        | urlError reason => simp [main, hp, generate_image, get_api_key, hk]
        | timeout => simp [main, hp, generate_image, get_api_key, hk]

/-- C5: a response whose `candidates` key is absent or an empty list makes
the extractor fail with the no-candidates message, and such a run exits 1
with that message on stderr. -/
theorem claim_C5 (r : Response)
    (h : r.candidates = none ∨ r.candidates = some []) :
    extract_image_data r = .error Msg.noCandidates ∧
    ∀ (prompt output key : String) (ioOk : Bool) (fs : FS),
      pyStrip prompt ≠ "" → key ≠ "" →
      (main prompt output (some key) (.ok r) ioOk fs).exitCode = 1 ∧
        Msg.noCandidates ∈ (main prompt output (some key) (.ok r) ioOk fs).stderr := by
  have hE : extract_image_data r = .error Msg.noCandidates := by
    rcases h with h | h <;> simp [extract_image_data, h]
  refine ⟨hE, ?_⟩
  intro prompt output key ioOk fs hp hk
  simp [main, hp, generate_image, get_api_key, hk, hE]

/-- Witness for C5 on a response without the `candidates` key. -/
theorem claim_C5_witness :
    extract_image_data ⟨none⟩ = .error Msg.noCandidates ∧
      (main "hi" "o.png" (some "k") (.ok ⟨none⟩) true ⟨[], []⟩).exitCode = 1 ∧
      Msg.noCandidates ∈ (main "hi" "o.png" (some "k") (.ok ⟨none⟩) true ⟨[], []⟩).stderr :=
  ⟨(claim_C5 ⟨none⟩ (Or.inl rfl)).1,
    (claim_C5 ⟨none⟩ (Or.inl rfl)).2 "hi" "o.png" "k" true ⟨[], []⟩ (by decide) (by decide)⟩

/-- C6: a non-2xx HTTP response (urllib raises `HTTPError` exactly for
those) makes the run exit 1 with the status code on stderr, followed by the
error body when one was read. -/
theorem claim_C6 (code : Nat) (body prompt output key : String)
    (ioOk : Bool) (fs : FS) (hp : pyStrip prompt ≠ "") (hk : key ≠ "") :
    (main prompt output (some key) (.httpError code body) ioOk fs).exitCode = 1 ∧
      Msg.apiRequestFailed code ∈
        (main prompt output (some key) (.httpError code body) ioOk fs).stderr ∧
      (body ≠ "" →
        Msg.apiErrorDetails body ∈
          (main prompt output (some key) (.httpError code body) ioOk fs).stderr) := by
  by_cases hb : body = "" <;>
    simp [main, hp, generate_image, get_api_key, hk, hb]

/-- Witness for C6 on a 404 with a structured body. -/
theorem claim_C6_witness :
    (main "hi" "o.png" (some "k") (.httpError 404 "quota") true ⟨[], []⟩).exitCode = 1 ∧
      Msg.apiRequestFailed 404 ∈
        (main "hi" "o.png" (some "k") (.httpError 404 "quota") true ⟨[], []⟩).stderr ∧
      ("quota" ≠ "" →
        Msg.apiErrorDetails "quota" ∈
          (main "hi" "o.png" (some "k") (.httpError 404 "quota") true ⟨[], []⟩).stderr) :=
  claim_C6 404 "quota" "hi" "o.png" "k" true ⟨[], []⟩ (by decide) (by decide)

/-- C7: when the output path's parent directory is missing, the writer
creates the parent and its whole ancestor chain before the write, and the
write succeeds: the file then holds the bytes. -/
theorem claim_C7 (fs : FS) (image_bytes : List Nat) (output_path : String)
    (hparent : dirname output_path ≠ "")
    (_hmissing : dirname output_path ∉ fs.dirs) :
    ∃ fs' : FS,
      save_image true fs image_bytes output_path = .ok (fs', output_path) ∧
      dirname output_path ∈ fs'.dirs ∧
      (∀ d ∈ ancestorChain ((dirname output_path).length + 1) (dirname output_path),
        d ∈ fs'.dirs) ∧
      fs'.readFile output_path = some image_bytes := by
  refine ⟨_, rfl, ?_, ?_, ?_⟩
  · simp only [save_image, if_pos hparent, makedirs]
    exact List.mem_append_left _
      (self_mem_ancestorChain (dirname output_path) hparent _)
  · intro d hd
    simp only [save_image, if_pos hparent, makedirs]
    exact List.mem_append_left _ hd
  · simp [save_image, FS.readFile]

/-- Witness for C7 on a two-level missing parent. -/
theorem claim_C7_witness :
    ∃ fs' : FS,
      save_image true ⟨[], []⟩ [1, 2, 3] "pics/out/img.png" = .ok (fs', "pics/out/img.png") ∧
      dirname "pics/out/img.png" ∈ fs'.dirs ∧
      (∀ d ∈ ancestorChain ((dirname "pics/out/img.png").length + 1)
          (dirname "pics/out/img.png"), d ∈ fs'.dirs) ∧
      fs'.readFile "pics/out/img.png" = some [1, 2, 3] :=
  claim_C7 ⟨[], []⟩ [1, 2, 3] "pics/out/img.png" (by decide) (by decide)

/-- C8: the extractor exits with the empty-data message when the selected
inline part's payload is empty, with the decode-failure message when
decoding throws, and returns `(bytes, mime)` only when the selected part's
payload is non-empty and decodes to exactly those bytes. -/
theorem claim_C8 :
    (∀ (r : Response) (c : Candidate) (cs : List Candidate) (ct : Content)
        (pre rest : List Part) (part : Part) (inline : InlineData),
        r.candidates = some (c :: cs) → c.content = some ct →
        ct.parts = some (pre ++ part :: rest) →
        (∀ q ∈ pre, q.inlineData = none) → part.inlineData = some inline →
        inline.data.getD "" = "" →
        extract_image_data r = .error Msg.emptyImageData) ∧
    (∀ (r : Response) (c : Candidate) (cs : List Candidate) (ct : Content)
        (pre rest : List Part) (part : Part) (inline : InlineData) (s : String),
        r.candidates = some (c :: cs) → c.content = some ct →
        ct.parts = some (pre ++ part :: rest) →
        (∀ q ∈ pre, q.inlineData = none) → part.inlineData = some inline →
        inline.data = some s → s ≠ "" → b64decode s = none →
        extract_image_data r = .error Msg.base64DecodeFailed) ∧
    (∀ (r : Response) (bytes : List Nat) (mime : String),
        extract_image_data r = .ok (bytes, mime) →
        ∃ (c : Candidate) (cs : List Candidate) (pre rest : List Part)
          (part : Part) (inline : InlineData),
          r.candidates = some (c :: cs) ∧
          (c.content.getD ⟨none⟩).parts.getD [] = pre ++ part :: rest ∧
          (∀ q ∈ pre, q.inlineData = none) ∧
          part.inlineData = some inline ∧
          inline.data.getD "" ≠ "" ∧
          b64decode (inline.data.getD "") = some bytes ∧
          mime = inline.mimeType.getD "image/png") := by
  refine ⟨?_, ?_, ?_⟩
  · intro r c cs ct pre rest part inline hr hct hps hpre hpart hdata
    rw [extract_image_data_first_inline r c cs ct pre part rest inline hr hct hps hpre hpart]
    rw [if_pos hdata]
  · intro r c cs ct pre rest part inline s hr hct hps hpre hpart hdata hs hdec
    rw [extract_image_data_first_inline r c cs ct pre part rest inline hr hct hps hpre hpart]
    rw [hdata, Option.getD_some, if_neg hs, hdec]
  · intro r bytes mime h
    unfold extract_image_data at h
    rcases hl : r.candidates with _ | l
    · rw [hl] at h
      simp at h
    · rw [hl] at h
      simp only [Option.getD_some] at h
      rcases l with _ | ⟨c, cs⟩
      · simp at h
      · obtain ⟨pre, rest, part, inline, hsplit, hpre, hpart, hne, hb, hm⟩ :=
          extractFromParts_ok_inv _ bytes mime h
        exact ⟨c, cs, pre, rest, part, inline, rfl, hsplit, hpre, hpart, hne, hb, hm⟩

/-- Witness for C8: an empty payload, a payload whose decoding throws
(dangling group "QQ"), and a successful extraction inverted back to the
part that produced it. -/
theorem claim_C8_witness :
    extract_image_data ⟨some [⟨some ⟨some [⟨some ⟨none, some ""⟩⟩]⟩⟩]⟩ =
        .error Msg.emptyImageData ∧
      extract_image_data ⟨some [⟨some ⟨some [⟨some ⟨none, some "QQ"⟩⟩]⟩⟩]⟩ =
        .error Msg.base64DecodeFailed ∧
      (∃ (c : Candidate) (cs : List Candidate) (pre rest : List Part)
          (part : Part) (inline : InlineData),
        (⟨some [⟨some ⟨some [⟨some ⟨some "image/png", some "TWFu"⟩⟩]⟩⟩]⟩ :
            Response).candidates = some (c :: cs) ∧
        (c.content.getD ⟨none⟩).parts.getD [] = pre ++ part :: rest ∧
        (∀ q ∈ pre, q.inlineData = none) ∧
        part.inlineData = some inline ∧
        inline.data.getD "" ≠ "" ∧
        b64decode (inline.data.getD "") = some [77, 97, 110] ∧
        "image/png" = inline.mimeType.getD "image/png") :=
  ⟨claim_C8.1 ⟨some [⟨some ⟨some [⟨some ⟨none, some ""⟩⟩]⟩⟩]⟩
      ⟨some ⟨some [⟨some ⟨none, some ""⟩⟩]⟩⟩ [] ⟨some [⟨some ⟨none, some ""⟩⟩]⟩
      [] [] ⟨some ⟨none, some ""⟩⟩ ⟨none, some ""⟩
      rfl rfl rfl (by simp) rfl rfl,
    claim_C8.2.1 ⟨some [⟨some ⟨some [⟨some ⟨none, some "QQ"⟩⟩]⟩⟩]⟩
      ⟨some ⟨some [⟨some ⟨none, some "QQ"⟩⟩]⟩⟩ [] ⟨some [⟨some ⟨none, some "QQ"⟩⟩]⟩
      [] [] ⟨some ⟨none, some "QQ"⟩⟩ ⟨none, some "QQ"⟩ "QQ"
      rfl rfl rfl (by simp) rfl rfl (by decide) rfl,
    claim_C8.2.2 ⟨some [⟨some ⟨some [⟨some ⟨some "image/png", some "TWFu"⟩⟩]⟩⟩]⟩
      [77, 97, 110] "image/png" rfl⟩

/-- C9: the returned mime-type is unused downstream — two runs whose
responses differ only in `mimeType` fields produce identical outcomes
(same exit code, same stderr, same files written at the same paths). -/
theorem claim_C9 (prompt output : String) (env : Option String)
    (r1 r2 : Response) (ioOk : Bool) (fs : FS)
    (h : r1.eraseMime = r2.eraseMime) :
    main prompt output env (.ok r1) ioOk fs = main prompt output env (.ok r2) ioOk fs := by
  have hE := extract_image_data_eraseMime r1 r2 h
  by_cases hp : pyStrip prompt = ""
  · simp [main, hp]
  · rcases env with _ | key
    · simp [main, hp, generate_image, get_api_key]
    · by_cases hk : key = ""
      · simp [main, hp, generate_image, get_api_key, hk]
      · rcases e1 : extract_image_data r1 with m1 | ⟨b1, mm1⟩ <;>
          rcases e2 : extract_image_data r2 with m2 | ⟨b2, mm2⟩
        · have hm : m1 = m2 := by
            rw [e1, e2] at hE
            simpa [Except.map] using hE
          simp [main, hp, generate_image, get_api_key, hk, e1, e2, hm]
        · rw [e1, e2] at hE
          simp [Except.map] at hE
        · rw [e1, e2] at hE
          simp [Except.map] at hE
        · have hbb : b1 = b2 := by
            rw [e1, e2] at hE
            simpa [Except.map] using hE
          simp [main, hp, generate_image, get_api_key, hk, e1, e2, hbb]

/-- Witness for C9: png versus jpeg mime over the same payload. -/
theorem claim_C9_witness :
    main "hi" "o.png" (some "k")
        (.ok ⟨some [⟨some ⟨some [⟨some ⟨some "image/png", some "TWFu"⟩⟩]⟩⟩]⟩) true ⟨[], []⟩ =
      main "hi" "o.png" (some "k")
        (.ok ⟨some [⟨some ⟨some [⟨some ⟨some "image/jpeg", some "TWFu"⟩⟩]⟩⟩]⟩) true ⟨[], []⟩ :=
  claim_C9 "hi" "o.png" (some "k")
    ⟨some [⟨some ⟨some [⟨some ⟨some "image/png", some "TWFu"⟩⟩]⟩⟩]⟩
    ⟨some [⟨some ⟨some [⟨some ⟨some "image/jpeg", some "TWFu"⟩⟩]⟩⟩]⟩
    true ⟨[], []⟩ rfl

/-- C10: the extractor inspects only the first candidate and stops at its
first part carrying an `inlineData` key: when that part's payload is empty,
the run exits 1 even though later parts of the same candidate or later
candidates may hold a valid payload. -/
theorem claim_C10 (r : Response) (c : Candidate) (cs : List Candidate)
    (ct : Content) (pre rest : List Part) (part : Part) (inline : InlineData)
    (prompt output key : String) (ioOk : Bool) (fs : FS)
    (hr : r.candidates = some (c :: cs)) (hct : c.content = some ct)
    (hps : ct.parts = some (pre ++ part :: rest))
    (hpre : ∀ q ∈ pre, q.inlineData = none)
    (hpart : part.inlineData = some inline)
    (hdata : inline.data.getD "" = "")
    (hp : pyStrip prompt ≠ "") (hk : key ≠ "") :
    extract_image_data r = .error Msg.emptyImageData ∧
      (main prompt output (some key) (.ok r) ioOk fs).exitCode = 1 ∧
      Msg.emptyImageData ∈ (main prompt output (some key) (.ok r) ioOk fs).stderr := by
  have hE : extract_image_data r = .error Msg.emptyImageData := by
    rw [extract_image_data_first_inline r c cs ct pre part rest inline hr hct hps hpre hpart]
    rw [if_pos hdata]
  exact ⟨hE, by simp [main, hp, generate_image, get_api_key, hk, hE]⟩

/-- Witness for C10: the first inline part is empty while a later part of
the same candidate and a second candidate both carry valid base64. -/
theorem claim_C10_witness :
    extract_image_data ⟨some
        [⟨some ⟨some [⟨none⟩, ⟨some ⟨none, some ""⟩⟩, ⟨some ⟨none, some "TWFu"⟩⟩]⟩⟩,
         ⟨some ⟨some [⟨some ⟨none, some "TWFu"⟩⟩]⟩⟩]⟩ = .error Msg.emptyImageData ∧
      (main "hi" "o.png" (some "k")
        (.ok ⟨some
          [⟨some ⟨some [⟨none⟩, ⟨some ⟨none, some ""⟩⟩, ⟨some ⟨none, some "TWFu"⟩⟩]⟩⟩,
           ⟨some ⟨some [⟨some ⟨none, some "TWFu"⟩⟩]⟩⟩]⟩) true ⟨[], []⟩).exitCode = 1 ∧
      Msg.emptyImageData ∈ (main "hi" "o.png" (some "k")
        (.ok ⟨some
          [⟨some ⟨some [⟨none⟩, ⟨some ⟨none, some ""⟩⟩, ⟨some ⟨none, some "TWFu"⟩⟩]⟩⟩,
           ⟨some ⟨some [⟨some ⟨none, some "TWFu"⟩⟩]⟩⟩]⟩) true ⟨[], []⟩).stderr :=
  claim_C10 ⟨some
      [⟨some ⟨some [⟨none⟩, ⟨some ⟨none, some ""⟩⟩, ⟨some ⟨none, some "TWFu"⟩⟩]⟩⟩,
       ⟨some ⟨some [⟨some ⟨none, some "TWFu"⟩⟩]⟩⟩]⟩
    ⟨some ⟨some [⟨none⟩, ⟨some ⟨none, some ""⟩⟩, ⟨some ⟨none, some "TWFu"⟩⟩]⟩⟩
    [⟨some ⟨some [⟨some ⟨none, some "TWFu"⟩⟩]⟩⟩]
    ⟨some [⟨none⟩, ⟨some ⟨none, some ""⟩⟩, ⟨some ⟨none, some "TWFu"⟩⟩]⟩
    [⟨none⟩] [⟨some ⟨none, some "TWFu"⟩⟩] ⟨some ⟨none, some ""⟩⟩ ⟨none, some ""⟩
    "hi" "o.png" "k" true ⟨[], []⟩
    rfl rfl rfl (by simp) rfl rfl (by decide) (by decide)

end GenerateImage
